import Mathlib

/-!
Verification development for the buidler-etherscan `verify` task
(src/packages/buidler-etherscan/src/index.ts).

The repository contains a single source file: the orchestration of the
`verify` task.  Its collaborators (solc version model, version-range
inference, bytecode matching, network probing, ABI encoding, the Etherscan
request builder) are consumed through dynamic imports and are not part of
the repository; where a claim depends on their behaviour they are either
modelled from the specification (clearly marked below) or abstracted as
oracle fields of the environment record `VerifyEnv`.

The `verify` action itself is embedded as a pure function from the
environment and the task arguments to the pair of
(ordered trace of performed external steps, outcome).  The trace makes the
temporal claims ("matching is never attempted", "submission happens before
success is reported") statable.
-/

/-- Structured solc version, as produced by `getVersionNumber`.
Modelled from the spec (Version Value Model): major, minor, patch, totally
ordered lexicographically; build metadata is informational only and omitted. -/
structure SolcVersion where
  major : Nat
  minor : Nat
  patch : Nat
deriving DecidableEq, Repr, BEq

/-- Modelled from the spec: strict lexicographic order on (major, minor, patch). -/
def SolcVersion.lt (a b : SolcVersion) : Bool :=
  a.major < b.major ||
  (a.major == b.major && (a.minor < b.minor ||
    (a.minor == b.minor && a.patch < b.patch)))

/-- Modelled from the spec: non-strict lexicographic order. -/
def SolcVersion.le (a b : SolcVersion) : Bool :=
  SolcVersion.lt a b || a == b

/-- Inferral strength of a version range, mirroring the `InferralType` enum
imported from `./solc/SolcVersions` (the source file uses `InferralType.EXACT`). -/
inductive InferralType where
  | EXACT
  | METADATA
  | BYTECODE_ERA
deriving DecidableEq, Repr, BEq

/-- Modelled from the spec: a version range with a lower bound (inclusive),
an optional upper bound (exclusive) and an InferralType tag; an `EXACT` range
collapses to the single version stored in `lower`. -/
structure VersionRange where
  inferralType : InferralType
  lower : SolcVersion
  upper : Option SolcVersion
deriving DecidableEq, Repr, BEq

/-- Modelled from the spec: `isIncluded(candidateVersion)` is true iff the
candidate falls within [lower, upper) or, for `Exact`, equals the single
version exactly. -/
def VersionRange.isIncluded (r : VersionRange) (v : SolcVersion) : Bool :=
  match r.inferralType with
  | InferralType.EXACT => v == r.lower
  | _ =>
    SolcVersion.le r.lower v &&
    (match r.upper with
     | some u => SolcVersion.lt v u
     | none => true)

/-- A byte sequence; bytecode is treated as a list of byte values. -/
def Bytecode := List Nat
deriving DecidableEq, Repr, BEq

/-- Modelled from the spec: a link reference identifies a library by
fully-qualified name and a set of byte offsets (each covering 20 bytes)
where its deployed address is substituted. -/
structure LinkReference where
  libraryName : String
  offsets : List Nat
deriving DecidableEq, Repr

/-- Modelled from the spec: a compiled artifact with its identity, ABI
(kept opaque as a string), deployed/runtime bytecode and the reference
tables describing its placeholder regions (immutable references kept as
raw (offset, length) spans). -/
structure CompiledArtifact where
  contractFilename : String
  contractName : String
  abi : String
  deployedBytecode : Bytecode
  linkReferences : List LinkReference
  immutableReferences : List (Nat × Nat)
deriving DecidableEq, Repr

/-- Modelled from the spec (Bytecode Normalizer): zero-fill every byte that
falls inside one of the given (offset, length) spans. -/
def zeroSpans (b : Bytecode) (spans : List (Nat × Nat)) : Bytecode :=
  (List.enum b).map fun p =>
    if spans.any (fun s => decide (s.1 ≤ p.1) && decide (p.1 < s.1 + s.2)) then 0 else p.2

/-- All placeholder spans of an artifact: 20 bytes per link-reference offset,
plus its immutable-reference spans. -/
def artifactSpans (a : CompiledArtifact) : List (Nat × Nat) :=
  (a.linkReferences.map fun lr => lr.offsets.map fun o => (o, 20)).flatten ++
    a.immutableReferences

/-- Modelled from the spec (Candidate Matcher, steps 1-2): a candidate matches
when the lengths agree and the two bytecodes, both normalized with the
candidate's own reference tables, are byte-for-byte identical. -/
def bytecodeMatches (deployed : Bytecode) (a : CompiledArtifact) : Bool :=
  a.deployedBytecode.length == deployed.length &&
  zeroSpans a.deployedBytecode (artifactSpans a) == zeroSpans deployed (artifactSpans a)

/-- Errors raised by the matcher, modelled from the spec error taxonomy. -/
inductive MatchError where
  | ambiguousArtifactMatch (names : List String)
  | libraryAddressInconsistency (libraryName : String)
deriving DecidableEq, Repr

/-- Modelled from the spec: the 20 bytes found at a given offset of the
original deployed bytecode. -/
def readAddress (deployed : Bytecode) (offset : Nat) : List Nat :=
  (List.drop offset deployed).take 20

/-- Modelled from the spec (Candidate Matcher, step 4): resolve one link
reference by reading the un-zeroed bytes at its recorded offsets from the
original deployed bytecode; all offsets must agree on the same value. -/
def resolveLink (deployed : Bytecode) (lr : LinkReference) :
    Except MatchError (String × List Nat) :=
  match lr.offsets with
  | [] => Except.ok (lr.libraryName, [])
  | o :: rest =>
    let addr := readAddress deployed o
    if rest.all (fun o2 => readAddress deployed o2 == addr) then
      Except.ok (lr.libraryName, addr)
    else
      Except.error (MatchError.libraryAddressInconsistency lr.libraryName)

/-- Modelled from the spec: resolve every link reference of an artifact. -/
def resolveLibraryLinks (deployed : Bytecode) (lrs : List LinkReference) :
    Except MatchError (List (String × List Nat)) :=
  lrs.mapM (resolveLink deployed)

/-- Modelled from the spec: a match result is the matching artifact plus the
mapping from library fully-qualified name to resolved on-chain address. -/
structure MatchResult where
  artifact : CompiledArtifact
  libraryLinks : List (String × List Nat)
deriving DecidableEq, Repr

/-- Modelled from the spec (Candidate Matcher): collect all candidates whose
normalized bytecode equals the normalized deployed bytecode; zero matches is
"no result" (`none`), exactly one match resolves its library links, more than
one match raises `ambiguousArtifactMatch` naming every candidate.  The
inferral type is received (as at the call site in `verify`) but the
spec-level matching decision does not depend on it. -/
def lookupMatchingBytecode (contracts : List CompiledArtifact)
    (deployed : Bytecode) (_it : InferralType) :
    Except MatchError (Option MatchResult) :=
  match contracts.filter (fun a => bytecodeMatches deployed a) with
  | [] => Except.ok none
  | [a] =>
    (resolveLibraryLinks deployed a.linkReferences).map fun links =>
      some { artifact := a, libraryLinks := links }
  | more =>
    Except.error (MatchError.ambiguousArtifactMatch (more.map fun a => a.contractName))

/-- Errors thrown by the `verify` task.  Each constructor corresponds to one
`throw new BuidlerPluginError(...)` site of the source (or to an error of the
spec-modelled matcher); it carries the data interpolated into the message, and
`VerifyError.message` reproduces the message text. -/
inductive VerifyError where
  | missingApiKey
  | unsupportedNetwork
  | invalidAddress (address : String)
  | unsupportedCompilerVersion
  | constructorModuleImportFailed
  | networkProber (innerMessage : String) (networkName : String)
  | noBytecode (address : String) (networkName : String)
  | noCompilerVersionInRange (configuredVersion : String) (detailedContext : String)
      (networkName : String)
  | noArtifactMatch (networkName : String)
  | matcher (e : MatchError)
  | constructorArityMismatch (contractFilename : String) (contractName : String)
      (typesCount : Nat) (valuesCount : Nat)
  | constructorArgumentTypeError (value : String) (argument : String) (reason : String)
  | rethrownEncodingError
deriving DecidableEq, Repr

/-- Message text of each error, following the strings of the source file
(the message of the spec-modelled matcher errors lists the data the spec
requires them to report). -/
def VerifyError.message : VerifyError → String
  | VerifyError.missingApiKey =>
    "Please provide an Etherscan API token via buidler config."
  | VerifyError.unsupportedNetwork =>
    "Please select a network supported by Etherscan."
  | VerifyError.invalidAddress a => a ++ " is an invalid address."
  | VerifyError.unsupportedCompilerVersion =>
    "Etherscan only supports compiler versions 0.4.11 and higher.\nSee https://etherscan.io/solcversions for more information."
  | VerifyError.constructorModuleImportFailed =>
    "Importing the module for the constructor arguments list failed."
  | VerifyError.networkProber inner net =>
    inner ++ " The selected network is " ++ net ++ "."
  | VerifyError.noBytecode a net =>
    "The address " ++ a ++ " has no bytecode. Is the contract deployed to this network?\nThe selected network is " ++ net ++ "."
  | VerifyError.noCompilerVersionInRange cfg detailed net =>
    "The bytecode retrieved could not have been generated by the selected compiler.\nThe selected compiler version is v" ++ cfg ++ ".\n" ++ detailed ++ "\nThe selected network is " ++ net ++ ".\nPossible causes:\n  - Wrong compiler version in buidler config\n  - Wrong address for contract\n  - Wrong network selected or faulty buidler network config"
  | VerifyError.noArtifactMatch net =>
    "The contract was not found among the ones present in this project.\nThe selected network is " ++ net ++ ".\nPossible causes:\n  - Wrong address for contract\n  - Wrong network selected or faulty buidler network config"
  | VerifyError.matcher (MatchError.ambiguousArtifactMatch names) =>
    "More than one contract matches the deployed bytecode: " ++ String.intercalate ", " names
  | VerifyError.matcher (MatchError.libraryAddressInconsistency lib) =>
    "The offsets of library " ++ lib ++ " decode to different addresses in the deployed bytecode."
  | VerifyError.constructorArityMismatch file name t v =>
    "The constructor for " ++ file ++ ":" ++ name ++ " has " ++ toString t ++ " parameters\n but " ++ toString v ++ " arguments were provided instead.\n"
  | VerifyError.constructorArgumentTypeError value argument reason =>
    "Value " ++ value ++ " cannot be encoded for the parameter " ++ argument ++ ".\nEncoder error reason: " ++ reason ++ "\n"
  | VerifyError.rethrownEncodingError =>
    "Encoding the deployment arguments failed."

/-- Outcome of the dynamic `import(constructorArgsModule)`: the module either
fails to load (`none`), or loads and its value is or is not an array. -/
inductive ModuleExport where
  | array (xs : List String)
  | nonArray
deriving DecidableEq, Repr

/-- Errors of `Interface.encodeDeploy`, as discriminated by
`isABIArgumentLengthError` / `isABIArgumentTypeError` in the source. -/
inductive ABIError where
  | argumentLength (typesCount : Nat) (valuesCount : Nat)
  | argumentType (value : String) (argument : String) (reason : String)
  | other
deriving DecidableEq, Repr

/-- Compiler-input settings; only the `libraries` field is manipulated by
`verify` (the rest of the settings object is kept opaque as a string). -/
structure CompilerSettings where
  libraries : List (String × List Nat)
  rest : String
deriving DecidableEq, Repr

/-- The compiler standard-JSON input; sources and most settings are opaque. -/
structure CompilerInput where
  sources : String
  settings : CompilerSettings
deriving DecidableEq, Repr

/-- The verification request assembled by `toRequest` from
`./etherscan/EtherscanVerifyContractRequest`. -/
structure EtherscanVerifyContractRequest where
  apiKey : String
  contractAddress : String
  sourceCode : String
  contractName : String
  compilerVersion : String
  constructorArguments : List Nat
deriving DecidableEq, Repr

/-- Builds the verification request from the data `verify` passes at the call
site (the external module also serializes it for HTTP; that is out of scope). -/
def toRequest (apiKey contractAddress sourceCode contractName compilerVersion : String)
    (constructorArguments : List Nat) : EtherscanVerifyContractRequest :=
  { apiKey := apiKey, contractAddress := contractAddress, sourceCode := sourceCode,
    contractName := contractName, compilerVersion := compilerVersion,
    constructorArguments := constructorArguments }

/-- External steps performed by `verify`, in source order; `submitRequest` is
the call to `verifyContract` and `getStatus` the call to
`getVerificationStatus` (both commented out in the source), `reportSubmitted`
and `reportVerified` are the two success `console.log` calls. -/
inductive Step where
  | getEndpoint
  | retrieveBytecode
  | inferVersion
  | compileStep
  | lookupMatch
  | encodeArgs
  | buildRequest
  | submitRequest
  | reportSubmitted
  | getStatus
  | reportVerified
deriving DecidableEq, Repr

/-- Arguments of the `verify` task (`VerificationArgs` in the source):
the positional address, the variadic positional constructor arguments and
the optional `--constructorArgs` module path. -/
structure VerificationArgs where
  address : String
  constructorArguments : List String
  constructorArgs : Option String
deriving DecidableEq, Repr

/-- Environment of one `verify` run: the buidler config and network together
with the external collaborators the task imports dynamically, abstracted as
oracle functions (they live outside this repository). -/
structure VerifyEnv where
  apiKey : Option String
  networkName : String
  isAddress : String → Bool
  solcVersionText : String
  solcVersionConfig : SolcVersion
  importModule : String → Option ModuleExport
  etherscanEndpoint : Except String Unit
  retrieveContractBytecode : String → Option Bytecode
  inferSolcVersion : Bytecode → VersionRange
  showRange : VersionRange → String
  compilerInput : CompilerInput
  compilerOutput : List CompiledArtifact
  encodeDeploy : String → List String → Except ABIError (List Nat)
  serializeInput : CompilerInput → String
  solcFullVersion : String

/-- The api-key guard of the source:
`etherscan.apiKey === undefined || etherscan.apiKey.trim() === ""`
(a trimmed-empty string is one whose characters are all whitespace). -/
def apiKeyMissing (env : VerifyEnv) : Bool :=
  match env.apiKey with
  | none => true
  | some k => k.toList.all fun c => c == ' ' || c == '\t' || c == '\n' || c == '\r'

/-- The version guard of the source: versions below 0.4.11 are rejected
because Etherscan does not support them. -/
def unsupportedVersion (v : SolcVersion) : Bool :=
  (v.major == 0 && v.minor == 4 && v.patch < 11) ||
  (v.major == 0 && v.minor < 4)

/-- The constructor-arguments block of `verify` (source lines 72-92): when a
module path was given the module is imported and its exported list used, the
positional list being ignored; a failing import, and also the inner
"module does not export a list" error (it is thrown inside the `try` and
caught by the surrounding `catch`), surface as the import-failure error. -/
def resolveConstructorArguments (env : VerifyEnv) (args : VerificationArgs) :
    Except VerifyError (List String) :=
  match args.constructorArgs with
  | some modulePath =>
    match env.importModule modulePath with
    | some (ModuleExport.array xs) => Except.ok xs
    | some ModuleExport.nonArray => Except.error VerifyError.constructorModuleImportFailed
    | none => Except.error VerifyError.constructorModuleImportFailed
  | none => Except.ok args.constructorArguments

/-- Successful outcome of `verify`: the assembled verification request and
the match information it was built from. -/
structure VerifySuccess where
  request : EtherscanVerifyContractRequest
  contractInformation : MatchResult
deriving DecidableEq, Repr

/-- Shallow embedding of the `verify` task action (source lines 14-223).
Returns the ordered trace of external steps performed together with the
outcome.  The trace records the calls to `getEtherscanEndpoint`,
`retrieveContractBytecode`, `inferSolcVersion`, `compile`,
`lookupMatchingBytecode`, `encodeDeploy` and `toRequest`, the two success
`console.log` calls, and would record the calls to `verifyContract`
(`submitRequest`) and `getVerificationStatus` (`getStatus`) — which the
source has commented out, so no branch ever emits them. -/
def verify (env : VerifyEnv) (args : VerificationArgs) :
    List Step × Except VerifyError VerifySuccess :=
  if apiKeyMissing env then
    ([], Except.error VerifyError.missingApiKey)
  else if env.networkName == "buidlerevm" then
    ([], Except.error VerifyError.unsupportedNetwork)
  else if !(env.isAddress args.address) then
    ([], Except.error (VerifyError.invalidAddress args.address))
  else if unsupportedVersion env.solcVersionConfig then
    ([], Except.error VerifyError.unsupportedCompilerVersion)
  else
    match resolveConstructorArguments env args with
    | Except.error e => ([], Except.error e)
    | Except.ok constructorArguments =>
      match env.etherscanEndpoint with
      | Except.error proberMessage =>
        ([Step.getEndpoint],
         Except.error (VerifyError.networkProber proberMessage env.networkName))
      | Except.ok _ =>
        match env.retrieveContractBytecode args.address with
        | none =>
          ([Step.getEndpoint, Step.retrieveBytecode],
           Except.error (VerifyError.noBytecode args.address env.networkName))
        | some deployedContractBytecode =>
          let solcVersionRange := env.inferSolcVersion deployedContractBytecode
          if !(solcVersionRange.isIncluded env.solcVersionConfig) then
            let detailedContext :=
              if solcVersionRange.inferralType == InferralType.EXACT then
                "The expected version is " ++ env.showRange solcVersionRange ++ "."
              else
                "The expected version range is " ++ env.showRange solcVersionRange ++ "."
            ([Step.getEndpoint, Step.retrieveBytecode, Step.inferVersion],
             Except.error (VerifyError.noCompilerVersionInRange
               env.solcVersionText detailedContext env.networkName))
          else
            match lookupMatchingBytecode env.compilerOutput deployedContractBytecode
                solcVersionRange.inferralType with
            | Except.error e =>
              ([Step.getEndpoint, Step.retrieveBytecode, Step.inferVersion,
                Step.compileStep, Step.lookupMatch],
               Except.error (VerifyError.matcher e))
            | Except.ok none =>
              ([Step.getEndpoint, Step.retrieveBytecode, Step.inferVersion,
                Step.compileStep, Step.lookupMatch],
               Except.error (VerifyError.noArtifactMatch env.networkName))
            | Except.ok (some contractInformation) =>
              match env.encodeDeploy contractInformation.artifact.abi constructorArguments with
              | Except.error (ABIError.argumentLength t v) =>
                ([Step.getEndpoint, Step.retrieveBytecode, Step.inferVersion,
                  Step.compileStep, Step.lookupMatch, Step.encodeArgs],
                 Except.error (VerifyError.constructorArityMismatch
                   contractInformation.artifact.contractFilename
                   contractInformation.artifact.contractName t v))
              | Except.error (ABIError.argumentType value argument reason) =>
                ([Step.getEndpoint, Step.retrieveBytecode, Step.inferVersion,
                  Step.compileStep, Step.lookupMatch, Step.encodeArgs],
                 Except.error (VerifyError.constructorArgumentTypeError value argument reason))
              | Except.error ABIError.other =>
                ([Step.getEndpoint, Step.retrieveBytecode, Step.inferVersion,
                  Step.compileStep, Step.lookupMatch, Step.encodeArgs],
                 Except.error VerifyError.rethrownEncodingError)
              | Except.ok deployArgumentsEncoded =>
                let linkedInput : CompilerInput :=
                  { env.compilerInput with
                    settings := { env.compilerInput.settings with
                                  libraries := contractInformation.libraryLinks } }
                let compilerInputJSON := env.serializeInput linkedInput
                let request := toRequest (env.apiKey.getD "") args.address
                  compilerInputJSON contractInformation.artifact.contractName
                  env.solcFullVersion deployArgumentsEncoded
                ([Step.getEndpoint, Step.retrieveBytecode, Step.inferVersion,
                  Step.compileStep, Step.lookupMatch, Step.encodeArgs,
                  Step.buildRequest, Step.reportSubmitted, Step.reportVerified],
                 Except.ok { request := request, contractInformation := contractInformation })

/-- A sample compiled artifact used in concrete runs. -/
def sampleArtifact : CompiledArtifact :=
  { contractFilename := "contracts/A.sol", contractName := "A", abi := "abiA",
    deployedBytecode := [1, 2, 3], linkReferences := [], immutableReferences := [] }

/-- A second artifact whose bytecode is identical to `sampleArtifact`,
producing an ambiguous match. -/
def sampleArtifactB : CompiledArtifact :=
  { contractFilename := "contracts/B.sol", contractName := "B", abi := "abiB",
    deployedBytecode := [1, 2, 3], linkReferences := [], immutableReferences := [] }

/-- A concrete environment on which `verify` completes its happy path: valid
API key, a supported network, deployed bytecode equal to the sample
artifact's bytecode, an inferred range containing the configured version. -/
def envHappy : VerifyEnv :=
  { apiKey := some "key"
    networkName := "ropsten"
    isAddress := fun _ => true
    solcVersionText := "0.5.1"
    solcVersionConfig := { major := 0, minor := 5, patch := 1 }
    importModule := fun _ => none
    etherscanEndpoint := Except.ok ()
    retrieveContractBytecode := fun _ => some [1, 2, 3]
    inferSolcVersion := fun _ =>
      { inferralType := InferralType.METADATA,
        lower := { major := 0, minor := 5, patch := 0 },
        upper := some { major := 0, minor := 6, patch := 0 } }
    showRange := fun _ => "0.5.x"
    compilerInput := { sources := "src", settings := { libraries := [], rest := "opts" } }
    compilerOutput := [sampleArtifact]
    encodeDeploy := fun _ _ => Except.ok [7, 8]
    serializeInput := fun i => i.sources ++ i.settings.rest
    solcFullVersion := "0.5.1+commit.abc" }

/-- Concrete task arguments for the sample runs. -/
def argsHappy : VerificationArgs :=
  { address := "0xdead", constructorArguments := [], constructorArgs := none }

/-- The exact-version range 0.5.0, as inferred from a metadata block holding
an exact compiler version. -/
def exactRange050 : VersionRange :=
  { inferralType := InferralType.EXACT,
    lower := { major := 0, minor := 5, patch := 0 }, upper := none }

/-- The happy environment, except that the deployed bytecode's metadata
yields the exact version 0.5.0 — outside the configured version 0.5.1. -/
def envVersionMismatch : VerifyEnv :=
  { envHappy with inferSolcVersion := fun _ => exactRange050 }

/-- End-to-end scenario 3 of the spec: configured compiler version 0.4.10
against a deployed bytecode whose metadata yields the exact version 0.5.0. -/
def envScenario3 : VerifyEnv :=
  { envVersionMismatch with
    solcVersionConfig := { major := 0, minor := 4, patch := 10 },
    solcVersionText := "0.4.10" }

/-- Scenario 3 with the configured version moved up to 0.4.11, the lowest
version that passes the Etherscan-support guard. -/
def envScenario3Amended : VerifyEnv :=
  { envVersionMismatch with
    solcVersionConfig := { major := 0, minor := 4, patch := 11 },
    solcVersionText := "0.4.11" }

/-- The happy environment, except the account-code query finds no bytecode. -/
def envNoBytecode : VerifyEnv :=
  { envHappy with retrieveContractBytecode := fun _ => none }

/-- The happy environment, except the deployed bytecode matches no artifact. -/
def envNoMatch : VerifyEnv :=
  { envHappy with retrieveContractBytecode := fun _ => some [9, 9, 9] }

/-- The happy environment, except the constructor-arguments module loads but
does not export an array. -/
def envCtorModule : VerifyEnv :=
  { envHappy with importModule := fun _ => some ModuleExport.nonArray }

/-- Task arguments passing a constructor-arguments module path. -/
def argsCtorModule : VerificationArgs :=
  { argsHappy with constructorArgs := some "arguments.js" }

/-- The outcome of the happy-path run of `verify` on `envHappy`. -/
def successHappy : VerifySuccess :=
  { request :=
      { apiKey := "key", contractAddress := "0xdead", sourceCode := "srcopts",
        contractName := "A", compilerVersion := "0.5.1+commit.abc",
        constructorArguments := [7, 8] },
    contractInformation := { artifact := sampleArtifact, libraryLinks := [] } }

/-- Helper: the constructor-arguments block can only fail with the
import-failure error (both the failing import and the non-array export are
surfaced through the surrounding catch). -/
theorem resolveConstructorArguments_error_shape (env : VerifyEnv) (args : VerificationArgs)
    (e : VerifyError) (h : resolveConstructorArguments env args = Except.error e) :
    e = VerifyError.constructorModuleImportFailed := by
  unfold resolveConstructorArguments at h
  split at h
  · split at h <;> simp_all
  · simp at h

/-- Helper: no run of `verify` ever performs the submission or the
status-poll call; both are commented out in the source. -/
theorem verify_never_submits (env : VerifyEnv) (args : VerificationArgs) :
    Step.submitRequest ∉ (verify env args).1 ∧ Step.getStatus ∉ (verify env args).1 := by
  simp only [verify]
  repeat' split
  all_goals simp

/-- C1: for every deployed bytecode and configured compiler version, if the
inferred version range's `isIncluded` check on the configured version is
false, `verify` raises an error, and neither the compilation step nor
`lookupMatchingBytecode` ever appears in the run's trace. -/
theorem verify_version_mismatch_short_circuits (env : VerifyEnv) (args : VerificationArgs)
    (bc : Bytecode)
    (hbc : env.retrieveContractBytecode args.address = some bc)
    (hinc : (env.inferSolcVersion bc).isIncluded env.solcVersionConfig = false) :
    (∃ e, (verify env args).2 = Except.error e) ∧
    Step.compileStep ∉ (verify env args).1 ∧
    Step.lookupMatch ∉ (verify env args).1 := by
  unfold verify
  split
  · exact ⟨⟨_, rfl⟩, by simp, by simp⟩
  split
  · exact ⟨⟨_, rfl⟩, by simp, by simp⟩
  split
  · exact ⟨⟨_, rfl⟩, by simp, by simp⟩
  split
  · exact ⟨⟨_, rfl⟩, by simp, by simp⟩
  split
  · exact ⟨⟨_, rfl⟩, by simp, by simp⟩
  split
  · exact ⟨⟨_, rfl⟩, by simp, by simp⟩
  split
  · exact ⟨⟨_, rfl⟩, by simp, by simp⟩
  next d heq =>
    rw [hbc] at heq
    injection heq with heq'
    subst heq'
    simp only [hinc, Bool.not_false, if_true]
    exact ⟨⟨_, rfl⟩, by simp, by simp⟩

/-- Witness for C1: a concrete run whose inferred exact version 0.5.0
excludes the configured version 0.5.1. -/
theorem verify_version_mismatch_short_circuits_witness :
    envVersionMismatch.retrieveContractBytecode argsHappy.address = some [1, 2, 3] ∧
    (envVersionMismatch.inferSolcVersion [1, 2, 3]).isIncluded
      envVersionMismatch.solcVersionConfig = false ∧
    ((∃ e, (verify envVersionMismatch argsHappy).2 = Except.error e) ∧
      Step.compileStep ∉ (verify envVersionMismatch argsHappy).1 ∧
      Step.lookupMatch ∉ (verify envVersionMismatch argsHappy).1) :=
  ⟨rfl, by decide,
   verify_version_mismatch_short_circuits envVersionMismatch argsHappy [1, 2, 3]
     rfl (by decide)⟩

/-- C2 (code bug): the happy-path run finds a match, encodes the constructor
arguments and builds the verification request, and the source then reports
"Successfully submitted" and "Successfully verified" — yet the call to
`verifyContract` (and to `getVerificationStatus`) is commented out, so the
request is never submitted to the verification service. -/
theorem verify_reports_success_without_submission :
    (verify envHappy argsHappy).2 = Except.ok successHappy ∧
    Step.reportSubmitted ∈ (verify envHappy argsHappy).1 ∧
    Step.reportVerified ∈ (verify envHappy argsHappy).1 ∧
    Step.submitRequest ∉ (verify envHappy argsHappy).1 ∧
    Step.getStatus ∉ (verify envHappy argsHappy).1 := by
  refine ⟨rfl, ?_, ?_, ?_, ?_⟩ <;> decide

/-- Counterexample to C3: with configured version 0.4.10 (as end-to-end
scenario 3 of the spec prescribes) `verify` raises the
Etherscan-support-guard error, not `NoCompilerVersionInRange`, and version
inference never runs — even though the environment's metadata would yield
the exact version 0.5.0. -/
theorem scenario3_hits_support_guard_first :
    verify envScenario3 argsHappy =
      ([], Except.error VerifyError.unsupportedCompilerVersion) ∧
    Step.inferVersion ∉ (verify envScenario3 argsHappy).1 ∧
    Step.lookupMatch ∉ (verify envScenario3 argsHappy).1 ∧
    envScenario3.inferSolcVersion [1, 2, 3] =
      { inferralType := InferralType.EXACT,
        lower := { major := 0, minor := 5, patch := 0 }, upper := none } ∧
    envScenario3.solcVersionConfig = { major := 0, minor := 4, patch := 10 } := by
  refine ⟨rfl, ?_, ?_, rfl, rfl⟩ <;> decide

/-- C3 as amended: with a configured version of 0.4.11 (the lowest version
that passes the Etherscan-support guard) and a deployed bytecode whose
metadata yields the exact inferred version 0.5.0, `verify` raises
`NoCompilerVersionInRange` reporting the expected version, and no matching
is attempted. -/
theorem scenario3_amended_reports_exact_version (env : VerifyEnv) (args : VerificationArgs)
    (ctorArgs : List String) (bc : Bytecode)
    (hkey : apiKeyMissing env = false)
    (hnet : (env.networkName == "buidlerevm") = false)
    (haddr : env.isAddress args.address = true)
    (hcfg : env.solcVersionConfig = { major := 0, minor := 4, patch := 11 })
    (hctor : resolveConstructorArguments env args = Except.ok ctorArgs)
    (hend : env.etherscanEndpoint = Except.ok ())
    (hbc : env.retrieveContractBytecode args.address = some bc)
    (hinf : env.inferSolcVersion bc =
      { inferralType := InferralType.EXACT,
        lower := { major := 0, minor := 5, patch := 0 }, upper := none }) :
    verify env args = ([Step.getEndpoint, Step.retrieveBytecode, Step.inferVersion],
      Except.error (VerifyError.noCompilerVersionInRange env.solcVersionText
        ("The expected version is " ++ env.showRange (env.inferSolcVersion bc) ++ ".")
        env.networkName)) ∧
    Step.compileStep ∉ (verify env args).1 ∧
    Step.lookupMatch ∉ (verify env args).1 := by
  have hver : unsupportedVersion env.solcVersionConfig = false := by rw [hcfg]; rfl
  have hinc : (env.inferSolcVersion bc).isIncluded env.solcVersionConfig = false := by
    rw [hinf, hcfg]; rfl
  have hexact : ((env.inferSolcVersion bc).inferralType == InferralType.EXACT) = true := by
    rw [hinf]; rfl
  have hverify : verify env args =
      ([Step.getEndpoint, Step.retrieveBytecode, Step.inferVersion],
       Except.error (VerifyError.noCompilerVersionInRange env.solcVersionText
         ("The expected version is " ++ env.showRange (env.inferSolcVersion bc) ++ ".")
         env.networkName)) := by
    unfold verify
    simp [hkey, hnet, haddr, hver, hctor, hend, hbc, hinc, hexact]
  exact ⟨hverify, by rw [hverify]; simp, by rw [hverify]; simp⟩

/-- Witness for the amended C3, on the concrete scenario-3 environment with
version 0.4.11. -/
theorem scenario3_amended_reports_exact_version_witness :
    apiKeyMissing envScenario3Amended = false ∧
    (envScenario3Amended.networkName == "buidlerevm") = false ∧
    envScenario3Amended.isAddress argsHappy.address = true ∧
    envScenario3Amended.solcVersionConfig = { major := 0, minor := 4, patch := 11 } ∧
    resolveConstructorArguments envScenario3Amended argsHappy = Except.ok [] ∧
    envScenario3Amended.etherscanEndpoint = Except.ok () ∧
    envScenario3Amended.retrieveContractBytecode argsHappy.address = some [1, 2, 3] ∧
    envScenario3Amended.inferSolcVersion [1, 2, 3] =
      { inferralType := InferralType.EXACT,
        lower := { major := 0, minor := 5, patch := 0 }, upper := none } ∧
    (verify envScenario3Amended argsHappy =
      ([Step.getEndpoint, Step.retrieveBytecode, Step.inferVersion],
       Except.error (VerifyError.noCompilerVersionInRange
         envScenario3Amended.solcVersionText
         ("The expected version is " ++
           envScenario3Amended.showRange (envScenario3Amended.inferSolcVersion [1, 2, 3]) ++ ".")
         envScenario3Amended.networkName)) ∧
     Step.compileStep ∉ (verify envScenario3Amended argsHappy).1 ∧
     Step.lookupMatch ∉ (verify envScenario3Amended argsHappy).1) :=
  ⟨rfl, by decide, rfl, rfl, rfl, rfl, rfl, rfl,
   scenario3_amended_reports_exact_version envScenario3Amended argsHappy [] [1, 2, 3]
     rfl (by decide) rfl rfl rfl rfl rfl rfl⟩

/-- C4: whenever more than one artifact's normalized bytecode equals the
normalized deployed bytecode, `lookupMatchingBytecode` raises the
ambiguous-match error listing every matching contract name; it never
returns a single candidate. -/
theorem lookupMatchingBytecode_ambiguous_lists_all_candidates
    (contracts : List CompiledArtifact) (bc : Bytecode) (it : InferralType)
    (h : 2 ≤ (contracts.filter (fun a => bytecodeMatches bc a)).length) :
    lookupMatchingBytecode contracts bc it =
      Except.error (MatchError.ambiguousArtifactMatch
        ((contracts.filter (fun a => bytecodeMatches bc a)).map fun a => a.contractName)) := by
  unfold lookupMatchingBytecode
  cases hs : contracts.filter (fun a => bytecodeMatches bc a) with
  | nil => rw [hs] at h; simp at h
  | cons a t =>
    cases t with
    | nil => rw [hs] at h; simp at h
    | cons b t2 => rfl

/-- Witness for C4: two artifacts with identical bytecode produce the
ambiguous-match error naming both. -/
theorem lookupMatchingBytecode_ambiguous_lists_all_candidates_witness :
    2 ≤ (([sampleArtifact, sampleArtifactB].filter
      (fun a => bytecodeMatches [1, 2, 3] a)).length) ∧
    lookupMatchingBytecode [sampleArtifact, sampleArtifactB] [1, 2, 3] InferralType.METADATA =
      Except.error (MatchError.ambiguousArtifactMatch
        (([sampleArtifact, sampleArtifactB].filter
          (fun a => bytecodeMatches [1, 2, 3] a)).map fun a => a.contractName)) :=
  ⟨by decide, lookupMatchingBytecode_ambiguous_lists_all_candidates
    [sampleArtifact, sampleArtifactB] [1, 2, 3] InferralType.METADATA (by decide)⟩

/-- C5: when no candidate artifact's normalized bytecode matches the
normalized deployed bytecode, the lookup returns `none` (no partial or
ambiguous result) and `verify` raises the user-facing error whose message
names the selected network and the possible causes. -/
theorem verify_no_artifact_match_reports_network (env : VerifyEnv) (args : VerificationArgs)
    (ctorArgs : List String) (bc : Bytecode)
    (hkey : apiKeyMissing env = false)
    (hnet : (env.networkName == "buidlerevm") = false)
    (haddr : env.isAddress args.address = true)
    (hver : unsupportedVersion env.solcVersionConfig = false)
    (hctor : resolveConstructorArguments env args = Except.ok ctorArgs)
    (hend : env.etherscanEndpoint = Except.ok ())
    (hbc : env.retrieveContractBytecode args.address = some bc)
    (hinc : (env.inferSolcVersion bc).isIncluded env.solcVersionConfig = true)
    (hnm : ∀ a ∈ env.compilerOutput, bytecodeMatches bc a = false) :
    lookupMatchingBytecode env.compilerOutput bc
      (env.inferSolcVersion bc).inferralType = Except.ok none ∧
    verify env args = ([Step.getEndpoint, Step.retrieveBytecode, Step.inferVersion,
        Step.compileStep, Step.lookupMatch],
      Except.error (VerifyError.noArtifactMatch env.networkName)) ∧
    (∃ p s, VerifyError.message (VerifyError.noArtifactMatch env.networkName) =
      p ++ env.networkName ++ s) := by
  have hfil : env.compilerOutput.filter (fun a => bytecodeMatches bc a) = [] := by
    rw [List.filter_eq_nil_iff]
    intro a ha
    simp [hnm a ha]
  have hlk : lookupMatchingBytecode env.compilerOutput bc
      (env.inferSolcVersion bc).inferralType = Except.ok none := by
    unfold lookupMatchingBytecode
    rw [hfil]
  refine ⟨hlk, ?_, ?_⟩
  · unfold verify
    simp [hkey, hnet, haddr, hver, hctor, hend, hbc, hinc, hlk]
  · exact ⟨"The contract was not found among the ones present in this project.\nThe selected network is ",
      ".\nPossible causes:\n  - Wrong address for contract\n  - Wrong network selected or faulty buidler network config",
      rfl⟩

/-- Witness for C5: deployed bytecode `[9, 9, 9]` matches no artifact of the
sample project. -/
theorem verify_no_artifact_match_reports_network_witness :
    apiKeyMissing envNoMatch = false ∧
    (envNoMatch.networkName == "buidlerevm") = false ∧
    envNoMatch.isAddress argsHappy.address = true ∧
    unsupportedVersion envNoMatch.solcVersionConfig = false ∧
    resolveConstructorArguments envNoMatch argsHappy = Except.ok [] ∧
    envNoMatch.etherscanEndpoint = Except.ok () ∧
    envNoMatch.retrieveContractBytecode argsHappy.address = some [9, 9, 9] ∧
    (envNoMatch.inferSolcVersion [9, 9, 9]).isIncluded envNoMatch.solcVersionConfig = true ∧
    (∀ a ∈ envNoMatch.compilerOutput, bytecodeMatches [9, 9, 9] a = false) ∧
    (lookupMatchingBytecode envNoMatch.compilerOutput [9, 9, 9]
      (envNoMatch.inferSolcVersion [9, 9, 9]).inferralType = Except.ok none ∧
     verify envNoMatch argsHappy = ([Step.getEndpoint, Step.retrieveBytecode, Step.inferVersion,
        Step.compileStep, Step.lookupMatch],
       Except.error (VerifyError.noArtifactMatch envNoMatch.networkName)) ∧
     (∃ p s, VerifyError.message (VerifyError.noArtifactMatch envNoMatch.networkName) =
       p ++ envNoMatch.networkName ++ s)) :=
  ⟨rfl, by decide, rfl, by decide, rfl, rfl, rfl, by decide, by decide,
   verify_no_artifact_match_reports_network envNoMatch argsHappy [] [9, 9, 9]
     rfl (by decide) rfl (by decide) rfl rfl rfl (by decide) (by decide)⟩

/-- C6: when the account-code query yields no bytecode for the address,
`verify` raises the error naming the address and the selected network, and
neither version inference nor matching is performed. -/
theorem verify_absent_bytecode_stops_early (env : VerifyEnv) (args : VerificationArgs)
    (ctorArgs : List String)
    (hkey : apiKeyMissing env = false)
    (hnet : (env.networkName == "buidlerevm") = false)
    (haddr : env.isAddress args.address = true)
    (hver : unsupportedVersion env.solcVersionConfig = false)
    (hctor : resolveConstructorArguments env args = Except.ok ctorArgs)
    (hend : env.etherscanEndpoint = Except.ok ())
    (hbc : env.retrieveContractBytecode args.address = none) :
    verify env args = ([Step.getEndpoint, Step.retrieveBytecode],
      Except.error (VerifyError.noBytecode args.address env.networkName)) ∧
    Step.inferVersion ∉ (verify env args).1 ∧
    Step.lookupMatch ∉ (verify env args).1 ∧
    (∃ p q s, VerifyError.message (VerifyError.noBytecode args.address env.networkName) =
      p ++ args.address ++ q ++ env.networkName ++ s) := by
  have hverify : verify env args = ([Step.getEndpoint, Step.retrieveBytecode],
      Except.error (VerifyError.noBytecode args.address env.networkName)) := by
    unfold verify
    simp [hkey, hnet, haddr, hver, hctor, hend, hbc]
  refine ⟨hverify, ?_, ?_, ?_⟩
  · rw [hverify]; simp
  · rw [hverify]; simp
  · exact ⟨"The address ",
      " has no bytecode. Is the contract deployed to this network?\nThe selected network is ",
      ".", rfl⟩

/-- Witness for C6: a run against an address holding no code. -/
theorem verify_absent_bytecode_stops_early_witness :
    apiKeyMissing envNoBytecode = false ∧
    (envNoBytecode.networkName == "buidlerevm") = false ∧
    envNoBytecode.isAddress argsHappy.address = true ∧
    unsupportedVersion envNoBytecode.solcVersionConfig = false ∧
    resolveConstructorArguments envNoBytecode argsHappy = Except.ok [] ∧
    envNoBytecode.etherscanEndpoint = Except.ok () ∧
    envNoBytecode.retrieveContractBytecode argsHappy.address = none ∧
    (verify envNoBytecode argsHappy = ([Step.getEndpoint, Step.retrieveBytecode],
       Except.error (VerifyError.noBytecode argsHappy.address envNoBytecode.networkName)) ∧
     Step.inferVersion ∉ (verify envNoBytecode argsHappy).1 ∧
     Step.lookupMatch ∉ (verify envNoBytecode argsHappy).1 ∧
     (∃ p q s, VerifyError.message
        (VerifyError.noBytecode argsHappy.address envNoBytecode.networkName) =
       p ++ argsHappy.address ++ q ++ envNoBytecode.networkName ++ s)) :=
  ⟨rfl, by decide, rfl, by decide, rfl, rfl, rfl,
   verify_absent_bytecode_stops_early envNoBytecode argsHappy []
     rfl (by decide) rfl (by decide) rfl rfl rfl⟩

/-- C7: whenever `verify` raises the `NoCompilerVersionInRange` error, the
run had retrieved a bytecode whose inferred range excludes the configured
version, and the detailed context embedded in the message reflects the
range's InferralType — a single expected version for an `EXACT` inferral,
an expected version range otherwise — and includes the rendered version
range. -/
theorem noCompilerVersionInRange_reflects_inferral_type (env : VerifyEnv)
    (args : VerificationArgs) (cfgText detailed net : String)
    (h : (verify env args).2 =
      Except.error (VerifyError.noCompilerVersionInRange cfgText detailed net)) :
    ∃ bc, env.retrieveContractBytecode args.address = some bc ∧
      (env.inferSolcVersion bc).isIncluded env.solcVersionConfig = false ∧
      detailed =
        (if (env.inferSolcVersion bc).inferralType == InferralType.EXACT then
          "The expected version is " ++ env.showRange (env.inferSolcVersion bc) ++ "."
         else
          "The expected version range is " ++ env.showRange (env.inferSolcVersion bc) ++ ".") ∧
      (∃ p s, detailed = p ++ env.showRange (env.inferSolcVersion bc) ++ s) := by
  unfold verify at h
  split at h
  · simp at h
  split at h
  · simp at h
  split at h
  · simp at h
  split at h
  · simp at h
  split at h
  · next e' heq' =>
      simp only [Except.error.injEq] at h
      subst h
      have := resolveConstructorArguments_error_shape env args _ heq'
      simp at this
  split at h
  · simp at h
  split at h
  · simp at h
  next d heq =>
    simp only [] at h
    split at h
    next hcond =>
      simp only [Bool.not_eq_eq_eq_not, Bool.not_true] at hcond
      simp only [Except.error.injEq, VerifyError.noCompilerVersionInRange.injEq] at h
      obtain ⟨h1, h2, h3⟩ := h
      refine ⟨d, heq, hcond, ?_, ?_⟩
      · exact h2.symm
      · rw [← h2]
        split
        · exact ⟨"The expected version is ", ".", rfl⟩
        · exact ⟨"The expected version range is ", ".", rfl⟩
    next hcond =>
      split at h
      · simp at h
      · simp at h
      · split at h <;> simp at h

/-- Witness for C7: the concrete version-mismatch run raises the error with
an exact-version detailed context. -/
theorem noCompilerVersionInRange_reflects_inferral_type_witness :
    (verify envVersionMismatch argsHappy).2 =
      Except.error (VerifyError.noCompilerVersionInRange "0.5.1"
        "The expected version is 0.5.x." "ropsten") ∧
    (∃ bc, envVersionMismatch.retrieveContractBytecode argsHappy.address = some bc ∧
      (envVersionMismatch.inferSolcVersion bc).isIncluded
        envVersionMismatch.solcVersionConfig = false ∧
      "The expected version is 0.5.x." =
        (if (envVersionMismatch.inferSolcVersion bc).inferralType == InferralType.EXACT then
          "The expected version is " ++
            envVersionMismatch.showRange (envVersionMismatch.inferSolcVersion bc) ++ "."
         else
          "The expected version range is " ++
            envVersionMismatch.showRange (envVersionMismatch.inferSolcVersion bc) ++ ".") ∧
      (∃ p s, "The expected version is 0.5.x." =
        p ++ envVersionMismatch.showRange (envVersionMismatch.inferSolcVersion bc) ++ s)) :=
  ⟨rfl, noCompilerVersionInRange_reflects_inferral_type envVersionMismatch argsHappy
    "0.5.1" "The expected version is 0.5.x." "ropsten" rfl⟩

/-- C8: on every successful run, the source-code field of the verification
request is the serialization of the compiler input whose
`settings.libraries` has been set to exactly the match result's
library-links mapping. -/
theorem verify_success_serializes_resolved_libraries (env : VerifyEnv)
    (args : VerificationArgs) (s : VerifySuccess)
    (h : (verify env args).2 = Except.ok s) :
    s.request.sourceCode = env.serializeInput
      { env.compilerInput with settings :=
        { env.compilerInput.settings with
          libraries := s.contractInformation.libraryLinks } } := by
  unfold verify at h
  split at h
  · simp at h
  split at h
  · simp at h
  split at h
  · simp at h
  split at h
  · simp at h
  split at h
  · simp at h
  split at h
  · simp at h
  split at h
  · simp at h
  next d heq =>
    simp only [] at h
    split at h
    · simp at h
    · split at h
      · simp at h
      · simp at h
      · split at h
        · simp at h
        · simp at h
        · simp at h
        · simp only [Except.ok.injEq] at h
          subst h
          rfl

/-- Witness for C8: the happy-path run's request serializes the linked
compiler input. -/
theorem verify_success_serializes_resolved_libraries_witness :
    (verify envHappy argsHappy).2 = Except.ok successHappy ∧
    successHappy.request.sourceCode = envHappy.serializeInput
      { envHappy.compilerInput with settings :=
        { envHappy.compilerInput.settings with
          libraries := successHappy.contractInformation.libraryLinks } } :=
  ⟨rfl, verify_success_serializes_resolved_libraries envHappy argsHappy successHappy rfl⟩

/-- C9: any configured solc version with major 0 and minor below 4, or minor
4 with patch below 11, makes `verify` raise the Etherscan-support error
before any bytecode retrieval, version inference or matching. -/
theorem verify_rejects_versions_below_0_4_11 (env : VerifyEnv) (args : VerificationArgs)
    (hkey : apiKeyMissing env = false)
    (hnet : (env.networkName == "buidlerevm") = false)
    (haddr : env.isAddress args.address = true)
    (hmaj : env.solcVersionConfig.major = 0)
    (hmin : env.solcVersionConfig.minor < 4 ∨
      (env.solcVersionConfig.minor = 4 ∧ env.solcVersionConfig.patch < 11)) :
    verify env args = ([], Except.error VerifyError.unsupportedCompilerVersion) ∧
    Step.retrieveBytecode ∉ (verify env args).1 ∧
    Step.inferVersion ∉ (verify env args).1 ∧
    Step.lookupMatch ∉ (verify env args).1 ∧
    VerifyError.message VerifyError.unsupportedCompilerVersion =
      "Etherscan only supports compiler versions 0.4.11 and higher.\nSee https://etherscan.io/solcversions for more information." := by
  have hv : unsupportedVersion env.solcVersionConfig = true := by
    unfold unsupportedVersion
    rcases hmin with h4 | ⟨h4, h11⟩
    · simp [hmaj, decide_eq_true h4]
    · simp [hmaj, h4, decide_eq_true h11]
  have hverify : verify env args = ([], Except.error VerifyError.unsupportedCompilerVersion) := by
    unfold verify
    simp [hkey, hnet, haddr, hv]
  refine ⟨hverify, ?_, ?_, ?_, rfl⟩ <;> rw [hverify] <;> simp

/-- Witness for C9: configured version 0.4.10 is rejected up front. -/
theorem verify_rejects_versions_below_0_4_11_witness :
    apiKeyMissing envScenario3 = false ∧
    (envScenario3.networkName == "buidlerevm") = false ∧
    envScenario3.isAddress argsHappy.address = true ∧
    envScenario3.solcVersionConfig.major = 0 ∧
    (envScenario3.solcVersionConfig.minor < 4 ∨
      (envScenario3.solcVersionConfig.minor = 4 ∧ envScenario3.solcVersionConfig.patch < 11)) ∧
    (verify envScenario3 argsHappy = ([], Except.error VerifyError.unsupportedCompilerVersion) ∧
     Step.retrieveBytecode ∉ (verify envScenario3 argsHappy).1 ∧
     Step.inferVersion ∉ (verify envScenario3 argsHappy).1 ∧
     Step.lookupMatch ∉ (verify envScenario3 argsHappy).1 ∧
     VerifyError.message VerifyError.unsupportedCompilerVersion =
      "Etherscan only supports compiler versions 0.4.11 and higher.\nSee https://etherscan.io/solcversions for more information.") :=
  ⟨rfl, by decide, rfl, rfl, Or.inr ⟨rfl, by decide⟩,
   verify_rejects_versions_below_0_4_11 envScenario3 argsHappy
     rfl (by decide) rfl rfl (Or.inr ⟨rfl, by decide⟩)⟩

/-- C10: when a constructor-arguments module path is given, the positional
constructor-arguments list is ignored and the module's exported list is
used; a failing import, and equally a module whose export is not an array
(its inner error is caught and re-wrapped by the surrounding catch), make
the resolution — and with it `verify`, before any network step — fail with
the import-failure error. -/
theorem constructor_args_module_overrides_positional (env : VerifyEnv)
    (args : VerificationArgs) (modulePath : String)
    (h : args.constructorArgs = some modulePath) :
    (∀ l, resolveConstructorArguments env { args with constructorArguments := l } =
      resolveConstructorArguments env args) ∧
    resolveConstructorArguments env args =
      (match env.importModule modulePath with
       | some (ModuleExport.array xs) => Except.ok xs
       | some ModuleExport.nonArray => Except.error VerifyError.constructorModuleImportFailed
       | none => Except.error VerifyError.constructorModuleImportFailed) ∧
    ∀ e, resolveConstructorArguments env args = Except.error e →
      apiKeyMissing env = false →
      (env.networkName == "buidlerevm") = false →
      env.isAddress args.address = true →
      unsupportedVersion env.solcVersionConfig = false →
      verify env args = ([], Except.error e) := by
  refine ⟨?_, ?_, ?_⟩
  · intro l
    unfold resolveConstructorArguments
    rw [show ({ args with constructorArguments := l } : VerificationArgs).constructorArgs
      = args.constructorArgs from rfl, h]
  · unfold resolveConstructorArguments
    rw [h]
  · intro e he hkey hnet haddr hver
    unfold verify
    simp [hkey, hnet, haddr, hver, he]

/-- Witness for C10: a module that loads but does not export an array makes
the run fail with the import-failure error. -/
theorem constructor_args_module_overrides_positional_witness :
    argsCtorModule.constructorArgs = some "arguments.js" ∧
    ((∀ l, resolveConstructorArguments envCtorModule
        { argsCtorModule with constructorArguments := l } =
      resolveConstructorArguments envCtorModule argsCtorModule) ∧
    resolveConstructorArguments envCtorModule argsCtorModule =
      (match envCtorModule.importModule "arguments.js" with
       | some (ModuleExport.array xs) => Except.ok xs
       | some ModuleExport.nonArray => Except.error VerifyError.constructorModuleImportFailed
       | none => Except.error VerifyError.constructorModuleImportFailed) ∧
    ∀ e, resolveConstructorArguments envCtorModule argsCtorModule = Except.error e →
      apiKeyMissing envCtorModule = false →
      (envCtorModule.networkName == "buidlerevm") = false →
      envCtorModule.isAddress argsCtorModule.address = true →
      unsupportedVersion envCtorModule.solcVersionConfig = false →
      verify envCtorModule argsCtorModule = ([], Except.error e)) :=
  ⟨rfl, constructor_args_module_overrides_positional envCtorModule argsCtorModule
    "arguments.js" rfl⟩
